import Mathlib

/-!
Verification of the DocuForge AI pipeline core against its sources: the
shared LangGraph state and its merge semantics (`src/orchestration/state.py`),
the supervisor router and reflection decision (`src/orchestration/router.py`),
the claim-based faithfulness verifier (`src/agents/verifier_agent.py`), the
stage agents that feed the loop (`src/agents/*.py`), and the graph driver
(`src/orchestration/graph.py`, `src/api/workers/analysis_tasks.py`).

External collaborators (LLM invocation, file parsing, web search, regex
claim extraction, JSON parsing of model output) are modelled as explicit
outcome parameters, as the spec treats them as black boxes.  Python floats
are modelled as rationals; Python dict-backed partial updates are modelled
by a record of optional fields.
-/

namespace DocuForge

/-- Output of the Analyst Agent (`src/models/agent_models.py`, `AnalysisResult`).
The `key_metrics` dict is modelled as an association list. -/
structure AnalysisResult where
  summary : String
  key_metrics : List (String × ℚ) := []
  chart_path : Option String := none
  anomalies : List String := []
deriving Repr, DecidableEq

/-- The shared pipeline state (`src/orchestration/state.py`, `DocuForgeState`).
`retrieved_chunks` and `draft_report` are `Option`-valued because the agents
read them with `state.get(...)` and distinguish an absent key (`None`) from a
present value; the graph initialises every key, but the agent code is
defensive about absence, and the distinction is load-bearing for the router
and the verifier fallback. -/
structure DocuForgeState where
  query : String
  uploaded_file_path : String
  file_format : String
  ingested_text : String
  retrieved_chunks : Option (List String)
  web_context : String
  analysis_result : Option AnalysisResult
  draft_report : Option String
  verified_report : String
  hallucination_score : ℚ
  faithfulness_score : ℚ
  routing_decision : String
  reflection_count : Nat
  agent_trace : List String
  error_log : List String
  session_id : String
deriving Repr, DecidableEq

/-- A partial state update as returned by each agent: a dict containing a
subset of the state keys.  `none` (resp. `[]` for the two `operator.add`
fields) models an absent key. -/
structure StateUpdate where
  query : Option String := none
  uploaded_file_path : Option String := none
  file_format : Option String := none
  ingested_text : Option String := none
  retrieved_chunks : Option (List String) := none
  web_context : Option String := none
  analysis_result : Option (Option AnalysisResult) := none
  draft_report : Option String := none
  verified_report : Option String := none
  hallucination_score : Option ℚ := none
  faithfulness_score : Option ℚ := none
  routing_decision : Option String := none
  reflection_count : Option Nat := none
  agent_trace : List String := []
  error_log : List String := []
  session_id : Option String := none
deriving Repr, DecidableEq

/-- The LangGraph channel merge declared by `DocuForgeState` in
`src/orchestration/state.py` (lines 15-40): the two fields annotated with
`operator.add` (`agent_trace`, `error_log`) have the update list appended to
the existing list; every other field is overwritten when the update carries
it and left unchanged otherwise. -/
def mergeState (s : DocuForgeState) (u : StateUpdate) : DocuForgeState where
  query := u.query.getD s.query
  uploaded_file_path := u.uploaded_file_path.getD s.uploaded_file_path
  file_format := u.file_format.getD s.file_format
  ingested_text := u.ingested_text.getD s.ingested_text
  retrieved_chunks := u.retrieved_chunks.elim s.retrieved_chunks some
  web_context := u.web_context.getD s.web_context
  analysis_result := u.analysis_result.getD s.analysis_result
  draft_report := u.draft_report.elim s.draft_report some
  verified_report := u.verified_report.getD s.verified_report
  hallucination_score := u.hallucination_score.getD s.hallucination_score
  faithfulness_score := u.faithfulness_score.getD s.faithfulness_score
  routing_decision := u.routing_decision.getD s.routing_decision
  reflection_count := u.reflection_count.getD s.reflection_count
  agent_trace := s.agent_trace ++ u.agent_trace
  error_log := s.error_log ++ u.error_log
  session_id := u.session_id.getD s.session_id

/-- Embeds `route_from_supervisor` (`src/orchestration/router.py`, lines
26-102).  The guards follow the source order exactly; note stage 2 routes to
`rag_agent` both when `retrieved_chunks` is `None` and when it is the empty
list (`retrieved_chunks is None or retrieved_chunks == []`). -/
def route_from_supervisor (state : DocuForgeState) : String :=
  if state.routing_decision = "error" then "error_handler"
  else if state.ingested_text = "" then "ingestion_agent"
  else if state.retrieved_chunks = none ∨ state.retrieved_chunks = some [] then "rag_agent"
  else if state.routing_decision = "needs_research" then "research_agent"
  else if state.analysis_result = none then "analyst_agent"
  else if state.draft_report.getD "" = "" then "writer_agent"
  else if state.verified_report = "" then "verifier_agent"
  else "done"

/-- The verifier configuration surface (`config/docuforge_config.yaml`,
`verifier` section), as consumed by `src/agents/verifier_agent.py` and
`src/orchestration/router.py`. -/
structure VerifierConfig where
  min_faithfulness_score : ℚ
  max_reflection_loops : Nat
  min_claims_to_verify : Nat
deriving Repr, DecidableEq

/-- Modelled from the spec: `config/docuforge_config.yaml` is not present
under `src/`; spec §6 fixes the configuration values consumed by the core to
`min_faithfulness_score = 0.85`, `max_reflection_loops = 3` and
`min_claims_to_verify = 8`, the same values `src/tests/test_v4_fix.py`
asserts for the shipped config file. -/
def defaultVerifierConfig : VerifierConfig where
  min_faithfulness_score := 17/20
  max_reflection_loops := 3
  min_claims_to_verify := 8

/-- Embeds `should_reflect` (`src/orchestration/router.py`, lines 105-124).
Both branches of the source return `"done"`: the max-loop guard returns
`"done"`, and the fall-through comment says the regenerate branch is not
implemented, so it also returns `"done"`. -/
def should_reflect (cfg : VerifierConfig) (state : DocuForgeState) : String :=
  if cfg.max_reflection_loops ≤ state.reflection_count then "done" else "done"

/-- Python `str.strip()`: drop whitespace from both ends.  Defined over the
character list so that it reduces inside the kernel. -/
def pyStrip (s : String) : String :=
  ⟨((s.data.dropWhile Char.isWhitespace).reverse.dropWhile Char.isWhitespace).reverse⟩

/-- Python slicing `s[:n]` (characters, not bytes). -/
def pyTake (s : String) (n : Nat) : String :=
  ⟨s.data.take n⟩

/-- Python `str.lower()`. -/
def pyLower (s : String) : String :=
  ⟨s.data.map Char.toLower⟩

/-- Python `str.startswith(pre)`. -/
def pyStartsWith (s pre : String) : Bool :=
  pre.data.isPrefixOf s.data

/-- Python `sep.join(xs)`. -/
def pyJoin (sep : String) : List String → String
  | [] => ""
  | [x] => x
  | x :: y :: xs => x ++ sep ++ pyJoin sep (y :: xs)

/-- Python `path.split(".")[-1].lower()`, the file-format computation of the
ingestion agent. -/
def pyLastDotSegment (s : String) : String :=
  pyLower ⟨((s.data.splitOn '.').getLastD [])⟩

/-- One entry of the `claim_verdicts` array that the verifier asks its
LLM-judge collaborator for (`src/agents/verifier_agent.py`, prompt lines
53-70).  The code reads the verdict with `v.get("verdict", 0)`, so the
verdict is an arbitrary JSON integer, not forced to be binary. -/
structure ClaimVerdict where
  claim : String := ""
  verdict : Int := 0
  evidence : Option String := none
deriving Repr, DecidableEq

/-- Outcome of the `llm.invoke` call plus the JSON-extraction cascade inside
`_compute_faithfulness_score` (lines 72-89): `failure` covers an invoke
exception, unparsable JSON and the raised `ValueError` (all of which land in
the `except` fallback), `success` the parsed `claim_verdicts` list. -/
inductive ExtractOutcome where
  | failure
  | success (verdicts : List ClaimVerdict)
deriving Repr, DecidableEq

/-- The dict `_compute_faithfulness_score` returns. -/
structure FaithResult where
  score : ℚ
  reject_for_insufficient_claims : Bool
  claim_count : Nat
  verdicts : List ClaimVerdict := []
deriving Repr, DecidableEq

/-- `"\n".join(source_chunks[:12])[:6000] if source_chunks else ""`
(`src/agents/verifier_agent.py`, line 45). -/
def sourceTextOf (source_chunks : List String) : String :=
  if source_chunks.isEmpty then ""
  else pyTake (pyJoin "\n" (source_chunks.take 12)) 6000

/-- Embeds `_compute_faithfulness_score` (`src/agents/verifier_agent.py`,
lines 28-126).  The LLM call and JSON parsing are the `outcome` parameter;
everything else follows the source: blank report scores 0.0, absent source
text scores the neutral 0.7, extraction failure the neutral 0.5, fewer than
8 verdicts forces the insufficient-claims rejection with score 0.0, and
otherwise the score is the mean of the verdict values. -/
def «_compute_faithfulness_score» (report : String) (source_chunks : List String)
    (outcome : ExtractOutcome) : FaithResult :=
  if pyStrip report = "" then
    { score := 0, reject_for_insufficient_claims := false, claim_count := 0 }
  else if sourceTextOf source_chunks = "" then
    { score := 7/10, reject_for_insufficient_claims := false, claim_count := 0 }
  else
    match outcome with
    | .failure =>
        { score := 1/2, reject_for_insufficient_claims := false, claim_count := 0 }
    | .success verdicts =>
        if verdicts.length < 8 then
          { score := 0, reject_for_insufficient_claims := true,
            claim_count := verdicts.length }
        else
          let scored : List Int := verdicts.map (fun v => v.verdict)
          let faithfulness : ℚ :=
            if scored = [] then 0 else (scored.sum : ℚ) / (scored.length : ℚ)
          { score := faithfulness, reject_for_insufficient_claims := false,
            claim_count := verdicts.length, verdicts := verdicts }

/-- Outcome of the code in the verifier's top-level `try` block that can
raise: `raises msg` models an exception escaping to the outer `except`
(e.g. `get_llm` failing), `completes o` a normal pass through
`_compute_faithfulness_score` with extraction outcome `o`. -/
inductive VerifierRun where
  | raises (msg : String)
  | completes (outcome : ExtractOutcome)
deriving Repr, DecidableEq

/-- Embeds `verifier_agent` (`src/agents/verifier_agent.py`, lines 129-214).
Branches, in source order: the empty/blank draft short-circuit (lines
136-145, reached before any fallible call), the main scoring-and-decision
path (lines 147-203), and the top-level `except` fallback (lines 205-214).
Every branch returns exactly the keys `verified_report`,
`faithfulness_score`, `hallucination_score`, `routing_decision` and
`agent_trace`; none of them writes `reflection_count`.  The `%.3f` float
formatting inside the trace entry is modelled with `toString`. -/
def verifier_agent (cfg : VerifierConfig) (run : VerifierRun)
    (state : DocuForgeState) : StateUpdate :=
  let draft := state.draft_report.getD ""
  if pyStrip draft = "" then
    { verified_report := some "Analysis could not be completed for this document.",
      faithfulness_score := some 0,
      hallucination_score := some 1,
      agent_trace := state.agent_trace ++ ["verifier_agent: empty draft"],
      routing_decision := some "done" }
  else
    match run with
    | .raises msg =>
        { verified_report := some (state.draft_report.getD "Analysis could not be completed."),
          faithfulness_score := some (1/2),
          hallucination_score := some (1/2),
          agent_trace := state.agent_trace ++ ["verifier_agent: error - " ++ msg],
          routing_decision := some "done" }
    | .completes outcome =>
        let retrieved_chunks := state.retrieved_chunks.getD []
        let reflection_count := state.reflection_count
        let faith_result := «_compute_faithfulness_score» draft retrieved_chunks outcome
        let faithfulness_score := faith_result.score
        let claim_count := faith_result.claim_count
        let reject_insufficient := faith_result.reject_for_insufficient_claims
        let hallucination_score := 1 - faithfulness_score
        let routing_decision :=
          if reject_insufficient ∧ reflection_count < cfg.max_reflection_loops then
            "regenerate"
          else if faithfulness_score < cfg.min_faithfulness_score ∧
              reflection_count < cfg.max_reflection_loops then
            "regenerate"
          else
            "done"
        { verified_report := some draft,
          faithfulness_score := some faithfulness_score,
          hallucination_score := some hallucination_score,
          routing_decision := some routing_decision,
          agent_trace := state.agent_trace ++
            ["verifier_agent: claims=" ++ toString claim_count ++
              ", faith=" ++ toString faithfulness_score ++
              ", decision=" ++ routing_decision] }

/-- Python substring membership `pat in s`, used by the supervisor keyword
check. -/
def strContainsSub (s pat : String) : Bool :=
  (List.range (s.data.length + 1)).any (fun i => (s.data.drop i).take pat.data.length = pat.data)

/-- The research keyword set of `supervisor_agent`
(`src/agents/supervisor_agent.py`, line 39). -/
def research_keywords : List String :=
  ["industry", "market", "competitor", "trend", "benchmark", "external", "current"]

/-- Embeds `supervisor_agent` (`src/agents/supervisor_agent.py`, lines 16-51):
an error state is preserved by returning the empty update; otherwise the
routing decision is `needs_research` when the lower-cased query contains a
research keyword, else `continue`, together with one trace entry. -/
def supervisor_agent (state : DocuForgeState) : StateUpdate :=
  if state.routing_decision = "error" then {}
  else
    let query := pyLower state.query
    let needs_research := research_keywords.any (fun k => strContainsSub query k)
    let routing_decision := if needs_research then "needs_research" else "continue"
    { routing_decision := some routing_decision,
      agent_trace := ["supervisor_agent: routing decision = " ++ routing_decision] }

/-- Outcome of the ingestion collaborators (`validate_file` / `ingest_file`). -/
inductive IngestRun where
  | validateFails (msg : String)
  | raises (msg : String)
  | extracts (text : String)
deriving Repr, DecidableEq

/-- Embeds `ingestion_agent` (`src/agents/ingestion_agent.py`, lines 17-88):
missing file path, failed validation and extraction exceptions set the error
state; extracted text below 50 stripped characters is an ingestion failure;
otherwise `ingested_text` and `file_format` are written with one trace
entry. -/
def ingestion_agent (run : IngestRun) (state : DocuForgeState) : StateUpdate :=
  if state.uploaded_file_path = "" then
    { error_log := ["No file path provided in state"],
      routing_decision := some "error",
      agent_trace := ["ingestion_agent: error - no file path"] }
  else
    match run with
    | .validateFails msg =>
        { error_log := [msg],
          routing_decision := some "error",
          agent_trace := ["ingestion_agent: validation failed - " ++ msg] }
    | .raises msg =>
        { error_log := ["Ingestion failed: " ++ msg],
          routing_decision := some "error",
          agent_trace := ["ingestion_agent: Ingestion failed: " ++ msg] }
    | .extracts text =>
        let file_format := pyLastDotSegment state.uploaded_file_path
        let text_length := if text = "" then 0 else (pyStrip text).length
        if text = "" ∨ text_length < 50 then
          let msg := "Extracted text too small (" ++ toString text_length ++
            " chars) - file may be empty or parsing failed"
          { error_log := [msg],
            routing_decision := some "error",
            agent_trace := ["ingestion_agent: " ++ msg] }
        else
          { ingested_text := some text,
            file_format := some file_format,
            agent_trace := ["ingestion_agent: parsed " ++ file_format ++ " file, " ++
              toString text_length ++ " chars extracted"],
            routing_decision := some "rag" }

/-- Outcome of the RAG collaborators: `chunks documents retrieved` models a
normal pass through `chunk_document` and `compute_hybrid_retrieval`. -/
inductive RagRun where
  | raises (msg : String)
  | chunks (documents : List String) (retrieved : List String)
deriving Repr, DecidableEq

/-- Embeds `rag_agent` (`src/agents/rag_agent.py`, lines 19-93): a truthy
`retrieved_chunks` skips re-processing; blank ingested text or an exception
sets the error state; an empty chunking result sets `retrieved_chunks` to
`[]` with an error; otherwise the retrieved chunk contents are written.
Note the retrieval result may legitimately be the empty list. -/
def rag_agent (run : RagRun) (state : DocuForgeState) : StateUpdate :=
  if (state.retrieved_chunks.getD []) ≠ [] then
    { routing_decision := some "analyst",
      agent_trace := ["rag_agent: skipped (already processed)"] }
  else if pyStrip state.ingested_text = "" then
    { error_log := ["No ingested text available for RAG"],
      routing_decision := some "error",
      agent_trace := ["rag_agent: error - no ingested text"] }
  else
    match run with
    | .raises msg =>
        { error_log := ["RAG pipeline failed: " ++ msg],
          routing_decision := some "error",
          agent_trace := ["rag_agent: RAG pipeline failed: " ++ msg] }
    | .chunks documents retrieved =>
        if documents = [] then
          { retrieved_chunks := some [],
            error_log := ["Failed to chunk document"],
            routing_decision := some "error",
            agent_trace := ["rag_agent: chunking failed"] }
        else
          { retrieved_chunks := some retrieved,
            agent_trace := ["rag_agent: chunked into " ++ toString documents.length ++
              " chunks, retrieved " ++ toString retrieved.length ++ " relevant chunks"],
            routing_decision := some "analyst" }

/-- Outcome of the web-search collaborator used by the research agent. -/
inductive ResearchRun where
  | raises (msg : String)
  | results (r1 r2 : String)
deriving Repr, DecidableEq

/-- Embeds `research_agent` (`src/agents/research_agent.py`, lines 11-60):
an empty query skips the search; the two search results are concatenated and
capped at 4000 characters; failures degrade to empty web context.  Every
branch returns the existing trace plus one new entry. -/
def research_agent (run : ResearchRun) (state : DocuForgeState) : StateUpdate :=
  if state.query = "" then
    { web_context := some "",
      agent_trace := state.agent_trace ++ ["research_agent: skipped (no query)"],
      routing_decision := some "analyst" }
  else
    match run with
    | .raises msg =>
        { web_context := some "",
          agent_trace := state.agent_trace ++ ["research_agent: error - " ++ msg],
          routing_decision := some "analyst" }
    | .results r1 r2 =>
        let combined := r1 ++ "\n" ++ r2
        let web_context := if combined.length > 4000 then pyTake combined 4000 else combined
        { web_context := some web_context,
          agent_trace := state.agent_trace ++
            ["research_agent: fetched " ++ toString web_context.length ++
              " chars of external context"],
          routing_decision := some "analyst" }

/-- Outcome of the analyst collaborators (the numeric-pattern regex, the LLM
call, JSON parsing, and code execution): `textOnly` models fewer than five
numeric patterns in the chunk text (no LLM call); `parsed summary metrics`
models a successful parse, with any execution output already folded into
`summary` as the source does. -/
inductive AnalystRun where
  | textOnly
  | quotaExhausted
  | parseFails (raw : String)
  | parsed (summary : String) (metrics : List (String × ℚ))
  | raises (msg : String)
deriving Repr, DecidableEq

/-- Embeds `analyst_agent` (`src/agents/analyst_agent.py`, lines 55-204).
All branches write an `analysis_result`, route to the writer and return the
existing trace plus one new entry.  The quoting of the query inside the
text-only summary is modelled without the literal quote characters. -/
def analyst_agent (run : AnalystRun) (state : DocuForgeState) : StateUpdate :=
  let retrieved_chunks := state.retrieved_chunks.getD []
  if retrieved_chunks = [] then
    { analysis_result := some (some { summary := "No data available for analysis." }),
      agent_trace := state.agent_trace ++ ["analyst_agent: no retrieved chunks"],
      routing_decision := some "writer" }
  else
    match run with
    | .textOnly =>
        let first_chunk := retrieved_chunks.headD ""
        let summary := "Document analysis complete. The document contains " ++
          toString retrieved_chunks.length ++
          " relevant sections addressing the query " ++ state.query ++
          ". Content overview: " ++ pyTake first_chunk 300 ++ "..."
        { analysis_result := some (some { summary := summary }),
          agent_trace := state.agent_trace ++ ["analyst_agent: text-only doc, LLM skipped"],
          routing_decision := some "writer" }
    | .quotaExhausted =>
        let summary := "Quantitative analysis skipped (API quota reached). Document has " ++
          toString retrieved_chunks.length ++ " relevant sections."
        { analysis_result := some (some { summary := summary }),
          agent_trace := state.agent_trace ++
            ["analyst_agent: quota exhausted, fallback used"],
          routing_decision := some "writer" }
    | .parseFails raw =>
        { analysis_result := some (some { summary := "Document analysis: " ++ pyTake raw 800 }),
          agent_trace := state.agent_trace ++
            ["analyst_agent: used raw LLM summary (JSON parse fallback)"],
          routing_decision := some "writer" }
    | .parsed summary metrics =>
        { analysis_result := some (some { summary := summary, key_metrics := metrics }),
          agent_trace := state.agent_trace ++
            ["analyst_agent: computed " ++ toString metrics.length ++ " metrics"],
          routing_decision := some "writer" }
    | .raises msg =>
        { analysis_result := some (some { summary := "Analysis error: " ++ msg }),
          agent_trace := state.agent_trace ++ ["analyst_agent: error - " ++ msg],
          routing_decision := some "writer" }

/-- Outcome of the writer collaborators: `response text parsed` models the
LLM response text together with the result of the JSON/`StructuredReport`
parsing cascade (`some draft` when any parse succeeded, `none` when every
parse failed so the source falls back to `response_text[:2000]`). -/
inductive WriterRun where
  | raises (msg : String)
  | response (text : String) (parsed : Option String)
deriving Repr, DecidableEq

/-- Embeds `writer_agent` (`src/agents/writer_agent.py`, lines 84-193).
Empty/error/short responses produce the fixed skip placeholder; otherwise
the parsed draft (or the truncated raw response) is used, re-falling back to
the raw response when the draft is empty or starts with `Error`.  Every
branch returns the existing trace plus one entry, routes to the verifier and
echoes the current `reflection_count` unchanged. -/
def writer_agent (run : WriterRun) (state : DocuForgeState) : StateUpdate :=
  match run with
  | .raises msg =>
      { draft_report := some ("Error generating report: " ++ msg),
        agent_trace := state.agent_trace ++ ["writer_agent: error - " ++ msg],
        routing_decision := some "verifier",
        reflection_count := some state.reflection_count }
  | .response text parsed =>
      if text = "" ∨ pyStartsWith text "Error" ∨ (pyStrip text).length < 10 then
        { draft_report :=
            some "Report generation skipped: upstream analysis yielded no actionable content.",
          agent_trace := state.agent_trace ++
            ["writer_agent: skipped due to upstream failure"],
          routing_decision := some "verifier",
          reflection_count := some state.reflection_count }
      else
        let draft0 := parsed.getD (pyTake text 2000)
        let draft_report :=
          if draft0 = "" ∨ pyStartsWith draft0 "Error" then pyTake text 2000 else draft0
        { draft_report := some draft_report,
          agent_trace := state.agent_trace ++ ["writer_agent: generated structured report"],
          routing_decision := some "verifier",
          reflection_count := some state.reflection_count }

/-- Embeds `_create_error_handler` (`src/orchestration/graph.py`, lines
28-40). -/
def «_create_error_handler» (_state : DocuForgeState) : StateUpdate :=
  { routing_decision := some "error" }

/-- The graph nodes added in `build_graph` (`src/orchestration/graph.py`,
lines 51-59). -/
inductive Node where
  | supervisor
  | ingestion
  | rag
  | research
  | analyst
  | writer
  | verifier
  | errorHandler
deriving Repr, DecidableEq

/-- The conditional-edge mapping attached to the supervisor node
(`src/orchestration/graph.py`, lines 65-78); `"done"` maps to `END`,
modelled as `none`. -/
def nodeOfRoute : String → Option Node
  | "ingestion_agent" => some .ingestion
  | "rag_agent" => some .rag
  | "research_agent" => some .research
  | "analyst_agent" => some .analyst
  | "writer_agent" => some .writer
  | "verifier_agent" => some .verifier
  | "error_handler" => some .errorHandler
  | _ => none

/-- One collaborator outcome per stage, fixed for the whole run: the stage
functions are deterministic given these outcomes. -/
structure StageRuns where
  ingest : IngestRun
  rag : RagRun
  research : ResearchRun
  analyst : AnalystRun
  writer : WriterRun
  verifier : VerifierRun
deriving Repr, DecidableEq

/-- The node functions registered in `build_graph`. -/
def nodeFn (runs : StageRuns) (cfg : VerifierConfig) :
    Node → DocuForgeState → StateUpdate
  | .supervisor => supervisor_agent
  | .ingestion => ingestion_agent runs.ingest
  | .rag => rag_agent runs.rag
  | .research => research_agent runs.research
  | .analyst => analyst_agent runs.analyst
  | .writer => writer_agent runs.writer
  | .verifier => verifier_agent cfg runs.verifier
  | .errorHandler => «_create_error_handler»

/-- The edges of `build_graph` (`src/orchestration/graph.py`, lines 62-100):
the supervisor routes via `route_from_supervisor`; ingestion, RAG, research
and analyst return to the supervisor; the writer goes straight to the
verifier; the verifier routes via `should_reflect` (whose only `"done"`
result maps to `END`); the error handler ends the run.  Conditional edge
functions receive the state already merged with the node output. -/
def nextNode (cfg : VerifierConfig) (node : Node) (merged : DocuForgeState) :
    Option Node :=
  match node with
  | .supervisor => nodeOfRoute (route_from_supervisor merged)
  | .ingestion => some .supervisor
  | .rag => some .supervisor
  | .research => some .supervisor
  | .analyst => some .supervisor
  | .writer => some .verifier
  | .verifier =>
      if should_reflect cfg merged = "writer_agent" then some .writer else none
  | .errorHandler => none

/-- The LangGraph execution loop driven by `run_analysis_pipeline`
(`src/api/workers/analysis_tasks.py`, lines 78-88): repeatedly execute the
current node, merge its update, and follow the edges until `END`.  `fuel` is
the host-provided `recursion_limit` passed to `graph.invoke`; exhausting it
aborts the run with a recursion error, modelled as `none`.  The driver has
no other stopping rule. -/
def driverRun (runs : StageRuns) (cfg : VerifierConfig) :
    Nat → Node → DocuForgeState → Option DocuForgeState
  | 0, _, _ => none
  | fuel + 1, node, s =>
      let merged := mergeState s (nodeFn runs cfg node s)
      match nextNode cfg node merged with
      | none => some merged
      | some node' => driverRun runs cfg fuel node' merged

/-- The recursion limit `run_analysis_pipeline` passes to `graph.invoke`
(`src/api/workers/analysis_tasks.py`, line 87). -/
def pipelineRecursionLimit : Nat := 25000

/-- The initial state built by `run_analysis_pipeline`
(`src/api/workers/analysis_tasks.py`, lines 58-75).  Note that
`retrieved_chunks` starts as the literal empty list, the same value an
attempted-but-empty retrieval leaves behind. -/
def initial_state (query file_path session_id prompt_version : String) :
    DocuForgeState where
  query := query
  uploaded_file_path := file_path
  file_format := ""
  ingested_text := ""
  retrieved_chunks := some []
  web_context := ""
  analysis_result := none
  draft_report := some ""
  verified_report := ""
  hallucination_score := 0
  faithfulness_score := 0
  routing_decision := ""
  reflection_count := 0
  agent_trace := ["pipeline: using prompt version " ++ prompt_version]
  error_log := []
  session_id := session_id

/-- A list of claim verdicts with the given numbers of supported and
unsupported claims, as the LLM-judge contract in spec §6 describes them
(binary verdicts). -/
def mkVerdicts (supported unsupported : Nat) : List ClaimVerdict :=
  List.replicate supported { verdict := 1 } ++ List.replicate unsupported { verdict := 0 }

/-- A concrete mid-run state: ingestion and retrieval succeeded, a draft
report exists, no reflection has happened yet. -/
def exampleState : DocuForgeState where
  query := "summarize the document"
  uploaded_file_path := "/tmp/report.pdf"
  file_format := "pdf"
  ingested_text := "some ingested document text"
  retrieved_chunks := some ["chunk one text", "chunk two text"]
  web_context := ""
  analysis_result := none
  draft_report := some "A draft report with facts."
  verified_report := ""
  hallucination_score := 0
  faithfulness_score := 0
  routing_decision := "continue"
  reflection_count := 0
  agent_trace := ["t0"]
  error_log := []
  session_id := "sess"

/-- A concrete partial update setting one overwrite field and appending one
trace entry, leaving every other field absent. -/
def exampleUpdate : StateUpdate where
  draft_report := some "new draft"
  agent_trace := ["writer_agent: generated structured report"]

end DocuForge

namespace DocuForge

/-- Claim C3, counterexample: a state with non-empty `ingested_text`,
`retrieved_chunks` holding the attempted-but-empty result (the literal empty
list, the only representation the code has for it, and also the value
`initial_state` starts from), and `routing_decision = "continue"` is routed
to `rag_agent`, not to the analysis stage: the router re-attempts retrieval
whenever the chunk list is empty, never distinguishing attempted-empty from
never-attempted. -/
theorem C3_route_attempted_empty_counterexample :
    route_from_supervisor { exampleState with retrieved_chunks := some [] } = "rag_agent" ∧
    route_from_supervisor { exampleState with retrieved_chunks := some [] } ≠
      "analyst_agent" := by
  constructor
  · rfl
  · decide

/-- Claim C3, amended: `route_from_supervisor` returns `rag_agent` whenever
`retrieved_chunks` is `None` or the empty list (no matter whether retrieval
was already attempted), provided no error is flagged and ingestion is done;
it returns the analysis stage only when the chunk list is non-empty,
research is not requested and `analysis_result` is unset. -/
theorem C3_route_empty_chunks_amended :
    (∀ state : DocuForgeState, state.routing_decision ≠ "error" →
      state.ingested_text ≠ "" →
      (state.retrieved_chunks = none ∨ state.retrieved_chunks = some []) →
      route_from_supervisor state = "rag_agent") ∧
    (∀ state : DocuForgeState, state.routing_decision ≠ "error" →
      state.routing_decision ≠ "needs_research" →
      state.ingested_text ≠ "" →
      state.retrieved_chunks ≠ none → state.retrieved_chunks ≠ some [] →
      state.analysis_result = none →
      route_from_supervisor state = "analyst_agent") := by
  constructor
  · intro state h1 h2 h3
    simp [route_from_supervisor, h1, h2, h3]
  · intro state h1 h2 h3 h4 h5 h6
    have hchunks : ¬(state.retrieved_chunks = none ∨ state.retrieved_chunks = some []) := by
      rintro (h | h) <;> [exact h4 h; exact h5 h]
    simp [route_from_supervisor, h1, h2, h3, hchunks, h6]

/-- Claim C3, amended, witness: both parts of the amended router statement at
concrete states. -/
theorem C3_route_empty_chunks_amended_witness :
    route_from_supervisor { exampleState with retrieved_chunks := some [] } = "rag_agent" ∧
    route_from_supervisor exampleState = "analyst_agent" :=
  ⟨C3_route_empty_chunks_amended.1 _ (by decide) (by decide) (Or.inr rfl),
   C3_route_empty_chunks_amended.2 _ (by decide) (by decide) (by decide)
     (by decide) (by decide) rfl⟩

/-- Claim C5: every verifier invocation — the empty-draft branch, the
internal-error fallback branch and the main scoring path alike — returns
`hallucination_score` equal to `1 − faithfulness_score` exactly. -/
theorem C5_hallucination_is_one_minus_faithfulness :
    ∀ (cfg : VerifierConfig) (run : VerifierRun) (state : DocuForgeState),
      ∃ f : ℚ, (verifier_agent cfg run state).faithfulness_score = some f ∧
        (verifier_agent cfg run state).hallucination_score = some (1 - f) := by
  intro cfg run state
  by_cases h : pyStrip (state.draft_report.getD "") = ""
  · refine ⟨0, ?_, ?_⟩ <;> norm_num [verifier_agent, h]
  · cases run with
    | raises msg => refine ⟨1/2, ?_, ?_⟩ <;> norm_num [verifier_agent, h]
    | completes outcome =>
        refine ⟨(«_compute_faithfulness_score» (state.draft_report.getD "")
          (state.retrieved_chunks.getD []) outcome).score, ?_, ?_⟩ <;>
          simp [verifier_agent, h]

/-- Claim C6: whenever the draft report is absent, empty or blank, the
verifier returns the full empty-draft update: score 0.0, the fixed
placeholder `verified_report`, routing decision `done` (a terminal accept,
never a regenerate), independent of the reflection budget and of every
collaborator outcome. -/
theorem C6_empty_draft_terminal_accept :
    ∀ (cfg : VerifierConfig) (run : VerifierRun) (state : DocuForgeState),
      pyStrip (state.draft_report.getD "") = "" →
      verifier_agent cfg run state =
        { verified_report := some "Analysis could not be completed for this document.",
          faithfulness_score := some 0,
          hallucination_score := some 1,
          agent_trace := state.agent_trace ++ ["verifier_agent: empty draft"],
          routing_decision := some "done" } := by
  intro cfg run state h
  simp [verifier_agent, h]

/-- Claim C6, witness: the empty-draft update at a concrete blank-draft
state with reflection budget remaining. -/
theorem C6_empty_draft_terminal_accept_witness :
    verifier_agent defaultVerifierConfig (.completes .failure)
        { exampleState with draft_report := some "   " } =
      { verified_report := some "Analysis could not be completed for this document.",
        faithfulness_score := some 0,
        hallucination_score := some 1,
        agent_trace := exampleState.agent_trace ++ ["verifier_agent: empty draft"],
        routing_decision := some "done" } :=
  C6_empty_draft_terminal_accept _ _ _ (by decide)

/-- Claim C10: the verifier is total over top-level internal failures: when
anything inside its `try` block raises (modelled by `VerifierRun.raises`,
reachable only past the empty-draft short-circuit), it returns — rather than
raising — the fallback update that sets `verified_report` to the existing
draft (with a fixed placeholder defaulting an absent key), scores 0.5/0.5,
and terminally routes to `done`, never to `regenerate`. -/
theorem C10_verifier_error_fallback :
    ∀ (cfg : VerifierConfig) (msg : String) (state : DocuForgeState),
      pyStrip (state.draft_report.getD "") ≠ "" →
      verifier_agent cfg (.raises msg) state =
        { verified_report := some (state.draft_report.getD "Analysis could not be completed."),
          faithfulness_score := some (1/2),
          hallucination_score := some (1/2),
          agent_trace := state.agent_trace ++ ["verifier_agent: error - " ++ msg],
          routing_decision := some "done" } := by
  intro cfg msg state h
  simp [verifier_agent, h]

/-- Claim C10, witness: the fallback update at a concrete state whose
verification raises. -/
theorem C10_verifier_error_fallback_witness :
    verifier_agent defaultVerifierConfig (.raises "boom") exampleState =
      { verified_report := some "A draft report with facts.",
        faithfulness_score := some (1/2),
        hallucination_score := some (1/2),
        agent_trace := exampleState.agent_trace ++ ["verifier_agent: error - boom"],
        routing_decision := some "done" } :=
  C10_verifier_error_fallback _ _ _ (by decide)

/-- Claim C7: the state merge appends the update's `agent_trace` and
`error_log` values to the existing lists — a prefix-preserving extension,
never a replacement, truncation or reordering — while every non-append-only
field carried by the update overwrites the old value and absent fields are
left unchanged. -/
theorem C7_merge_append_only_prefix_preserving :
    ∀ (s : DocuForgeState) (u : StateUpdate),
      (mergeState s u).agent_trace = s.agent_trace ++ u.agent_trace ∧
      (mergeState s u).error_log = s.error_log ++ u.error_log ∧
      s.agent_trace <+: (mergeState s u).agent_trace ∧
      s.error_log <+: (mergeState s u).error_log ∧
      ((u.query = none → (mergeState s u).query = s.query) ∧
        ∀ v, u.query = some v → (mergeState s u).query = v) ∧
      ((u.uploaded_file_path = none →
          (mergeState s u).uploaded_file_path = s.uploaded_file_path) ∧
        ∀ v, u.uploaded_file_path = some v → (mergeState s u).uploaded_file_path = v) ∧
      ((u.file_format = none → (mergeState s u).file_format = s.file_format) ∧
        ∀ v, u.file_format = some v → (mergeState s u).file_format = v) ∧
      ((u.ingested_text = none → (mergeState s u).ingested_text = s.ingested_text) ∧
        ∀ v, u.ingested_text = some v → (mergeState s u).ingested_text = v) ∧
      ((u.retrieved_chunks = none →
          (mergeState s u).retrieved_chunks = s.retrieved_chunks) ∧
        ∀ v, u.retrieved_chunks = some v → (mergeState s u).retrieved_chunks = some v) ∧
      ((u.web_context = none → (mergeState s u).web_context = s.web_context) ∧
        ∀ v, u.web_context = some v → (mergeState s u).web_context = v) ∧
      ((u.analysis_result = none →
          (mergeState s u).analysis_result = s.analysis_result) ∧
        ∀ v, u.analysis_result = some v → (mergeState s u).analysis_result = v) ∧
      ((u.draft_report = none → (mergeState s u).draft_report = s.draft_report) ∧
        ∀ v, u.draft_report = some v → (mergeState s u).draft_report = some v) ∧
      ((u.verified_report = none →
          (mergeState s u).verified_report = s.verified_report) ∧
        ∀ v, u.verified_report = some v → (mergeState s u).verified_report = v) ∧
      ((u.hallucination_score = none →
          (mergeState s u).hallucination_score = s.hallucination_score) ∧
        ∀ v, u.hallucination_score = some v → (mergeState s u).hallucination_score = v) ∧
      ((u.faithfulness_score = none →
          (mergeState s u).faithfulness_score = s.faithfulness_score) ∧
        ∀ v, u.faithfulness_score = some v → (mergeState s u).faithfulness_score = v) ∧
      ((u.routing_decision = none →
          (mergeState s u).routing_decision = s.routing_decision) ∧
        ∀ v, u.routing_decision = some v → (mergeState s u).routing_decision = v) ∧
      ((u.reflection_count = none →
          (mergeState s u).reflection_count = s.reflection_count) ∧
        ∀ v, u.reflection_count = some v → (mergeState s u).reflection_count = v) ∧
      ((u.session_id = none → (mergeState s u).session_id = s.session_id) ∧
        ∀ v, u.session_id = some v → (mergeState s u).session_id = v) := by
  intro s u
  refine ⟨rfl, rfl, ⟨u.agent_trace, rfl⟩, ⟨u.error_log, rfl⟩,
    ?_, ?_, ?_, ?_, ?_, ?_, ?_, ?_, ?_, ?_, ?_, ?_, ?_, ?_⟩ <;>
    exact ⟨fun h => by simp [mergeState, h], fun v h => by simp [mergeState, h]⟩

/-- Claim C7, witness: the merge properties at a concrete state and update
(the update carries `draft_report` and one trace entry and omits `query`). -/
theorem C7_merge_witness :
    (mergeState exampleState exampleUpdate).agent_trace =
      exampleState.agent_trace ++ exampleUpdate.agent_trace ∧
    (mergeState exampleState exampleUpdate).draft_report = some "new draft" ∧
    (mergeState exampleState exampleUpdate).query = exampleState.query := by
  obtain ⟨h1, h2, h3, h4, hq, hu, hf, hi, hr, hw, ha, hd, hv, hh, hfs, hrd, hrc, hs⟩ :=
    C7_merge_append_only_prefix_preserving exampleState exampleUpdate
  exact ⟨h1, hd.2 _ rfl, hq.1 rfl⟩

end DocuForge

namespace DocuForge

/-- An update whose `agent_trace` is the current trace plus one entry merges
to a trace in which the whole pre-existing trace is duplicated. -/
lemma trace_dup_of_update_trace {s : DocuForgeState} {u : StateUpdate} {e : String}
    (h : u.agent_trace = s.agent_trace ++ [e]) :
    (mergeState s u).agent_trace = s.agent_trace ++ s.agent_trace ++ [e] := by
  show s.agent_trace ++ u.agent_trace = _
  rw [h, List.append_assoc]

/-- Claim C9: the verifier, writer, research and analyst agents each return
an `agent_trace` that already contains the whole existing trace plus one new
entry of their own, so merging their update under the `operator.add`
append-only policy yields `s.agent_trace ++ s.agent_trace ++ [entry]` —
every pre-existing trace entry is duplicated by each such stage. -/
theorem C9_trace_duplicated_on_merge :
    ∀ s : DocuForgeState,
      (∀ (cfg : VerifierConfig) (run : VerifierRun), ∃ entry,
        (verifier_agent cfg run s).agent_trace = s.agent_trace ++ [entry] ∧
        (mergeState s (verifier_agent cfg run s)).agent_trace =
          s.agent_trace ++ s.agent_trace ++ [entry]) ∧
      (∀ run : WriterRun, ∃ entry,
        (writer_agent run s).agent_trace = s.agent_trace ++ [entry] ∧
        (mergeState s (writer_agent run s)).agent_trace =
          s.agent_trace ++ s.agent_trace ++ [entry]) ∧
      (∀ run : ResearchRun, ∃ entry,
        (research_agent run s).agent_trace = s.agent_trace ++ [entry] ∧
        (mergeState s (research_agent run s)).agent_trace =
          s.agent_trace ++ s.agent_trace ++ [entry]) ∧
      (∀ run : AnalystRun, ∃ entry,
        (analyst_agent run s).agent_trace = s.agent_trace ++ [entry] ∧
        (mergeState s (analyst_agent run s)).agent_trace =
          s.agent_trace ++ s.agent_trace ++ [entry]) := by
  intro s
  refine ⟨?_, ?_, ?_, ?_⟩
  · intro cfg run
    by_cases h : pyStrip (s.draft_report.getD "") = ""
    · exact ⟨_, by simp [verifier_agent, h]; try rfl, trace_dup_of_update_trace (by simp [verifier_agent, h]; try rfl)⟩
    · cases run with
      | raises msg =>
          exact ⟨_, by simp [verifier_agent, h]; try rfl, trace_dup_of_update_trace (by simp [verifier_agent, h]; try rfl)⟩
      | completes o =>
          exact ⟨_, by simp [verifier_agent, h]; try rfl, trace_dup_of_update_trace (by simp [verifier_agent, h]; try rfl)⟩
  · intro run
    cases run with
    | raises msg =>
        exact ⟨_, by simp [writer_agent]; try rfl, trace_dup_of_update_trace (by simp [writer_agent]; try rfl)⟩
    | response text parsed =>
        by_cases h : text = "" ∨ pyStartsWith text "Error" = true ∨ (pyStrip text).length < 10
        · exact ⟨_, by simp [writer_agent, h]; try rfl, trace_dup_of_update_trace (by simp [writer_agent, h]; try rfl)⟩
        · exact ⟨_, by simp [writer_agent, h]; try rfl, trace_dup_of_update_trace (by simp [writer_agent, h]; try rfl)⟩
  · intro run
    by_cases h : s.query = ""
    · exact ⟨_, by simp [research_agent, h]; try rfl, trace_dup_of_update_trace (by simp [research_agent, h]; try rfl)⟩
    · cases run with
      | raises msg =>
          exact ⟨_, by simp [research_agent, h]; try rfl, trace_dup_of_update_trace (by simp [research_agent, h]; try rfl)⟩
      | results r1 r2 =>
          exact ⟨_, by simp [research_agent, h]; try rfl, trace_dup_of_update_trace (by simp [research_agent, h]; try rfl)⟩
  · intro run
    by_cases h : s.retrieved_chunks.getD [] = []
    · exact ⟨_, by simp [analyst_agent, h]; try rfl, trace_dup_of_update_trace (by simp [analyst_agent, h]; try rfl)⟩
    · cases run <;>
        exact ⟨_, by simp [analyst_agent, h]; try rfl, trace_dup_of_update_trace (by simp [analyst_agent, h]; try rfl)⟩

/-- The sum of binary verdict values equals the number of supported
(verdict 1) claims. -/
lemma verdict_sum_eq_countP :
    ∀ l : List ClaimVerdict, (∀ v ∈ l, v.verdict = 0 ∨ v.verdict = 1) →
      (l.map (fun v => v.verdict)).sum = (l.countP (fun v => v.verdict == 1) : Int) := by
  intro l
  induction l with
  | nil => simp
  | cons x xs ih =>
      intro h
      have hx := h x (by simp)
      have hxs := ih (fun v hv => h v (by simp [hv]))
      rcases hx with h0 | h1
      · simp [List.countP_cons, h0, hxs]
      · simp [List.countP_cons, h1, hxs]
        try push_cast
        try omega

/-- When the report is non-blank, source text exists and at least 8 verdicts
were extracted, `_compute_faithfulness_score` returns the mean-of-verdicts
result record. -/
lemma compute_success_eq (report : String) (chunks : List String)
    (verdicts : List ClaimVerdict)
    (hrep : ¬ pyStrip report = "") (hsrc : ¬ sourceTextOf chunks = "")
    (hlen : ¬ verdicts.length < 8)
    (hnil : ¬ verdicts.map (fun v => v.verdict) = []) :
    «_compute_faithfulness_score» report chunks (.success verdicts) =
      { score := (((verdicts.map (fun v => v.verdict)).sum : ℤ) : ℚ) /
          ((verdicts.map (fun v => v.verdict)).length : ℚ),
        reject_for_insufficient_claims := false,
        claim_count := verdicts.length,
        verdicts := verdicts } := by
  simp only [«_compute_faithfulness_score», if_neg hrep, if_neg hsrc, if_neg hlen, if_neg hnil]

/-- Claim C4: whenever the minimum-sample guard passes (at least 8 extracted
claim verdicts, each a binary supported/unsupported verdict as the LLM-judge
contract specifies), the faithfulness score equals the number of supported
claims divided by the total number of extracted claims; in particular 10
claims with 9 supported score 9/10 and, under the configured minimum of
0.85, the verifier decision is accept (`done`). -/
theorem C4_faithfulness_is_supported_ratio :
    (∀ (report : String) (chunks : List String) (verdicts : List ClaimVerdict),
      pyStrip report ≠ "" → sourceTextOf chunks ≠ "" → 8 ≤ verdicts.length →
      (∀ v ∈ verdicts, v.verdict = 0 ∨ v.verdict = 1) →
      («_compute_faithfulness_score» report chunks (.success verdicts)).score =
        (verdicts.countP (fun v => v.verdict == 1) : ℚ) / (verdicts.length : ℚ)) ∧
    («_compute_faithfulness_score» "A draft report." ["chunk"]
        (.success (mkVerdicts 9 1))).score = 9/10 ∧
    (verifier_agent defaultVerifierConfig (.completes (.success (mkVerdicts 9 1)))
        exampleState).faithfulness_score = some (9/10) ∧
    (verifier_agent defaultVerifierConfig (.completes (.success (mkVerdicts 9 1)))
        exampleState).routing_decision = some "done" := by
  have hsum : ((mkVerdicts 9 1).map (fun v => v.verdict)).sum = 9 := by decide
  have hlen10 : ((mkVerdicts 9 1).map (fun v => v.verdict)).length = 10 := by decide
  have hb : ¬ pyStrip (exampleState.draft_report.getD "") = "" := by decide
  have e1 : exampleState.draft_report.getD "" = "A draft report with facts." := rfl
  have e2 : exampleState.retrieved_chunks.getD [] = ["chunk one text", "chunk two text"] := rfl
  have hb2 : ¬ pyStrip "A draft report with facts." = "" := by decide
  have hcomp := compute_success_eq "A draft report with facts."
    ["chunk one text", "chunk two text"] (mkVerdicts 9 1)
    (by decide) (by decide) (by decide) (by decide)
  refine ⟨?_, ?_, ?_, ?_⟩
  · intro report chunks verdicts hrep hsrc hlen hbin
    have hlt : ¬ verdicts.length < 8 := by omega
    have hne : ¬ verdicts.map (fun v => v.verdict) = [] := by
      intro hmap
      have := congrArg List.length hmap
      rw [List.length_map, List.length_nil] at this
      omega
    rw [compute_success_eq report chunks verdicts hrep hsrc hlt hne]
    rw [verdict_sum_eq_countP verdicts hbin]
    push_cast
    simp
  · rw [compute_success_eq "A draft report." ["chunk"] (mkVerdicts 9 1)
      (by decide) (by decide) (by decide) (by decide)]
    rw [hsum, hlen10]
    norm_num
  · simp [verifier_agent, e1, e2, hb2, hcomp, hsum, hlen10,
      defaultVerifierConfig, exampleState]
    try norm_num
  · simp [verifier_agent, e1, e2, hb2, hcomp, hsum, hlen10,
      defaultVerifierConfig, exampleState]
    try norm_num

/-- Claim C4, witness: the supported-ratio equation instantiated at the
10-claims / 9-supported sample. -/
theorem C4_faithfulness_is_supported_ratio_witness :
    («_compute_faithfulness_score» "A draft report." ["chunk"]
        (.success (mkVerdicts 9 1))).score =
      ((mkVerdicts 9 1).countP (fun v => v.verdict == 1) : ℚ) /
        ((mkVerdicts 9 1).length : ℚ) :=
  C4_faithfulness_is_supported_ratio.1 "A draft report." ["chunk"] (mkVerdicts 9 1)
    (by decide) (by decide) (by decide) (by decide)

/-- Claim C1: the verifier does set `routing_decision = "regenerate"`
exactly when (faithfulness below the minimum or the claim sample is
insufficient) and reflection budget remains, but the post-verification
conditional edge `should_reflect` returns `"done"` for every state and
every configuration, so the pipeline never re-enters the Writer stage: at
the concrete failing input (faithfulness 1/2 < 0.85, reflection budget
0 < 3) the verifier decides regenerate and the run still ends. -/
theorem C1_post_verification_edge_always_done :
    (∀ (cfg : VerifierConfig) (state : DocuForgeState),
      should_reflect cfg state = "done") ∧
    (verifier_agent defaultVerifierConfig
        (.completes (.success (mkVerdicts 5 5))) exampleState).routing_decision =
      some "regenerate" ∧
    should_reflect defaultVerifierConfig
        (mergeState exampleState
          (verifier_agent defaultVerifierConfig
            (.completes (.success (mkVerdicts 5 5))) exampleState)) = "done" := by
  have hsum : ((mkVerdicts 5 5).map (fun v => v.verdict)).sum = 5 := by decide
  have hlen10 : ((mkVerdicts 5 5).map (fun v => v.verdict)).length = 10 := by decide
  have hb : ¬ pyStrip (exampleState.draft_report.getD "") = "" := by decide
  have e1 : exampleState.draft_report.getD "" = "A draft report with facts." := rfl
  have e2 : exampleState.retrieved_chunks.getD [] = ["chunk one text", "chunk two text"] := rfl
  have hb2 : ¬ pyStrip "A draft report with facts." = "" := by decide
  have hcomp := compute_success_eq "A draft report with facts."
    ["chunk one text", "chunk two text"] (mkVerdicts 5 5)
    (by decide) (by decide) (by decide) (by decide)
  refine ⟨fun cfg state => ?_, ?_, ?_⟩
  · unfold should_reflect
    split <;> rfl
  · simp [verifier_agent, e1, e2, hb2, hcomp, hsum, hlen10,
      defaultVerifierConfig, exampleState]
    try norm_num
  · unfold should_reflect
    split <;> rfl

/-- Claim C2: no branch of the verifier writes `reflection_count` at all, so
a regenerate decision leaves the merged count unchanged instead of
incrementing it by 1 (the writer merely echoes the current value): at the
claimed scenario — 5 extracted claims, `reflection_count = 0`,
`max_reflection_loops = 3` — the decision is regenerate and the merged
`reflection_count` is still 0, not 1. -/
theorem C2_reflection_count_never_incremented :
    (∀ (cfg : VerifierConfig) (run : VerifierRun) (state : DocuForgeState),
      (verifier_agent cfg run state).reflection_count = none) ∧
    (∀ (run : WriterRun) (state : DocuForgeState),
      (writer_agent run state).reflection_count = some state.reflection_count) ∧
    (verifier_agent defaultVerifierConfig
        (.completes (.success (mkVerdicts 5 0))) exampleState).routing_decision =
      some "regenerate" ∧
    (mergeState exampleState
        (verifier_agent defaultVerifierConfig
          (.completes (.success (mkVerdicts 5 0))) exampleState)).reflection_count = 0 := by
  refine ⟨?_, ?_, by decide, by decide⟩
  · intro cfg run state
    by_cases h : pyStrip (state.draft_report.getD "") = ""
    · simp [verifier_agent, h]
    · cases run <;> simp [verifier_agent, h]
  · intro run state
    cases run with
    | raises msg => simp [writer_agent]
    | response text parsed =>
        by_cases h : text = "" ∨ pyStartsWith text "Error" = true ∨ (pyStrip text).length < 10 <;>
          simp [writer_agent, h]

/-- A 61-character document text (long enough to pass the ingestion
minimum-length check). -/
def c8DocText : String :=
  "0123456789012345678901234567890123456789012345678901234567890"

/-- Collaborator outcomes under which every stage behaves and hybrid
retrieval legitimately finds nothing: ingestion extracts text, chunking
produces one chunk, retrieval returns the empty list — the livelock
scenario spec §5 warns about. -/
def emptyRetrievalRuns : StageRuns where
  ingest := .extracts c8DocText
  rag := .chunks ["one chunk of the document"] []
  research := .results "" ""
  analyst := .textOnly
  writer := .response "a sufficiently long response" none
  verifier := .completes .failure

/-- The initial state of the looping run, as `run_analysis_pipeline` builds
it. -/
def c8InitialState : DocuForgeState :=
  initial_state "summarize the document" "/tmp/report.pdf" "sess" "v3"

/-- Once the state has non-blank ingested text and an empty (but set) chunk
list, the supervisor/rag cycle of the empty-retrieval scenario never reaches
a terminal edge: the driver always exhausts its fuel. -/
lemma c8_loop_stuck :
    ∀ n : Nat,
      (∀ s : DocuForgeState, s.retrieved_chunks = some [] →
        pyStrip s.ingested_text ≠ "" → s.routing_decision ≠ "error" →
        driverRun emptyRetrievalRuns defaultVerifierConfig n .supervisor s = none) ∧
      (∀ s : DocuForgeState, s.retrieved_chunks = some [] →
        pyStrip s.ingested_text ≠ "" →
        driverRun emptyRetrievalRuns defaultVerifierConfig n .rag s = none) := by
  intro n
  induction n with
  | zero => exact ⟨fun _ _ _ _ => rfl, fun _ _ _ => rfl⟩
  | succ n ih =>
      constructor
      · intro s h1 h2 h3
        have hing : s.ingested_text ≠ "" := fun he => h2 (by rw [he]; rfl)
        have hmr : (mergeState s (supervisor_agent s)).retrieved_chunks =
            s.retrieved_chunks := by
          simp [supervisor_agent, mergeState, h3]
        have hmi : (mergeState s (supervisor_agent s)).ingested_text =
            s.ingested_text := by
          simp [supervisor_agent, mergeState, h3]
        have hmrd : (mergeState s (supervisor_agent s)).routing_decision ≠ "error" := by
          simp [supervisor_agent, mergeState, h3]
          split <;> decide
        have hroute : route_from_supervisor (mergeState s (supervisor_agent s)) =
            "rag_agent" := by
          unfold route_from_supervisor
          rw [if_neg hmrd, hmi, if_neg hing, if_pos (Or.inr (by rw [hmr, h1]))]
        have hstep : driverRun emptyRetrievalRuns defaultVerifierConfig (n + 1)
            .supervisor s =
            driverRun emptyRetrievalRuns defaultVerifierConfig n .rag
              (mergeState s (supervisor_agent s)) := by
          simp only [driverRun, nodeFn, nextNode, hroute, nodeOfRoute]
        rw [hstep]
        exact ih.2 _ (by rw [hmr, h1]) (by rw [hmi]; exact h2)
      · intro s h1 h2
        have hgd : s.retrieved_chunks.getD [] = [] := by rw [h1]; rfl
        have hrr : (mergeState s (rag_agent emptyRetrievalRuns.rag s)).retrieved_chunks =
            some [] := by
          simp [rag_agent, emptyRetrievalRuns, mergeState, hgd, h2]
        have hri : (mergeState s (rag_agent emptyRetrievalRuns.rag s)).ingested_text =
            s.ingested_text := by
          simp [rag_agent, emptyRetrievalRuns, mergeState, hgd, h2]
        have hrrd : (mergeState s (rag_agent emptyRetrievalRuns.rag s)).routing_decision ≠
            "error" := by
          simp [rag_agent, emptyRetrievalRuns, mergeState, hgd, h2]
        have hstep : driverRun emptyRetrievalRuns defaultVerifierConfig (n + 1) .rag s =
            driverRun emptyRetrievalRuns defaultVerifierConfig n .supervisor
              (mergeState s (rag_agent emptyRetrievalRuns.rag s)) := by
          simp only [driverRun, nodeFn, nextNode]
        rw [hstep]
        exact ih.1 _ hrr (by rw [hri]; exact h2) hrrd

/-- From the true initial state of the run, with retrieval always returning
zero chunks, the driver never terminates on its own: every fuel value is
exhausted. -/
lemma c8_start_none :
    ∀ fuel : Nat,
      driverRun emptyRetrievalRuns defaultVerifierConfig fuel .supervisor
        c8InitialState = none := by
  intro fuel
  match fuel with
  | 0 => rfl
  | 1 => decide
  | (n + 2) =>
      exact (c8_loop_stuck n).1 _ (by decide) (by decide) (by decide)

/-- Claim C8, counterexample: there is no driver-enforced iteration ceiling.
In the concrete run where retrieval keeps returning zero chunks, no bound N
makes the driver terminate once given at least N fuel — the run ends only
when the host-provided `recursion_limit` fuel is exhausted, so a stage that
never satisfies its routing precondition loops until that external limit
aborts the run. -/
theorem C8_no_independent_ceiling_counterexample :
    ¬ ∃ N : Nat, ∀ fuel : Nat, N ≤ fuel →
      (driverRun emptyRetrievalRuns defaultVerifierConfig fuel .supervisor
        c8InitialState).isSome := by
  rintro ⟨N, hN⟩
  have h := hN N le_rfl
  rw [c8_start_none N] at h
  simp at h

/-- Claim C8, amended: the graph driver has no iteration ceiling of its own —
its only stopping rule for a non-terminating stage pattern is the
host-provided LangGraph `recursion_limit` (passed as 25000 by
`run_analysis_pipeline`).  In the empty-retrieval scenario the driver ends
in fuel exhaustion (a `GraphRecursionError`) for every fuel value, including
the actual 25000. -/
theorem C8_driver_bounded_only_by_recursion_limit :
    (∀ fuel : Nat,
      driverRun emptyRetrievalRuns defaultVerifierConfig fuel .supervisor
        c8InitialState = none) ∧
    driverRun emptyRetrievalRuns defaultVerifierConfig pipelineRecursionLimit
      .supervisor c8InitialState = none :=
  ⟨c8_start_none, c8_start_none _⟩

end DocuForge
